import Mathlib

/-!
Verification of the application-monitor sampling / aggregation / alerting
engine, a shallow embedding of the repository sources:

* `src/docker_monitor/monitor.py`  — `_compute_cpu_usage`, `DockerMonitor._do_monitor`,
  `DockerMonitor.get_stats`;
* `src/server_monitor/monitor.py`  — `_compute_stats_usage`, `ServerMonitor._do_monitor`,
  `ServerMonitor.get_stats`;
* `src/telegrambot/sender.py`      — `send_cpu_alarm`, `send_memory_alert`,
  `send_resource_alert` and the severity classification inside the message builders.

Modelling conventions:
* Python floats are modelled as rationals (`ℚ`); timestamps as rationals in seconds,
  the analysis period in minutes exactly as the source compares them
  (`(time - last).total_seconds() / 60 >= analysis_period`).
* A Python operation that can raise is modelled with `Option` (`none` = an exception
  was raised at that point).
* The per-target mutable dict `decoded_stats_per_container` is an association list;
  dict assignment is `setName`, dict lookup is `lookupName`.
* The sampling side effect of a tick is passed in as data: for each container the
  tick receives `some sample` (the `container.stats` + decode succeeded) or `none`
  (the call raised).  Alert sends are returned as the list of send calls initiated;
  whether such a call itself raises is decided by `dispatchRaises` on the sender
  embedding (the zero-threshold severity division), and a raising send skips the
  window reset exactly as the corresponding `except` scope of the source dictates.
* Lock extent is modelled by a trace of `LockEvent`s emitted in the exact order of
  the source statements; `markHeld` annotates each event with whether the
  mutual-exclusion lock is held when it happens.
-/

namespace AppMonitor

/-- One decoded reading for one target: the `cpu_percent_value` and
`memory_percent_value` fields produced by `_decode_container_stats`
(present on well-formed decoder output), resp. the `psutil.cpu_percent()` /
`psutil.virtual_memory().percent` pair of the server monitor. -/
structure Sample where
  cpuPercentValue : ℚ
  memPercentValue : ℚ
deriving DecidableEq

/-- The monitoring parameters of `stats_config/stats_config.py` and
`docker_monitor/config.py` that the tick logic reads: the two alarm
thresholds (percent) and the analysis period (minutes). -/
structure StatsConfig where
  cpuAlarmThreshold : ℚ
  memoryAlarmThreshold : ℚ
  analysisPeriod : ℚ
deriving DecidableEq

/-- The classified outcome of a window close: which of the three `send_*`
calls (or none) the monitor dispatches, with the values it passes. -/
inductive AlertDecision
  | noAlert
  | cpuOnly (value threshold : ℚ)
  | memoryOnly (value threshold : ℚ)
  | both (cpuValue cpuThreshold memValue memThreshold : ℚ)
deriving DecidableEq

/-- The threshold classification shared by `DockerMonitor._do_monitor`
(monitor.py lines 121-127) and `ServerMonitor._do_monitor` (lines 39-46):
`if cpu_t < cpu and mem_t < mem: resource` / `elif cpu_t < cpu: cpu` /
`elif mem_t < mem: memory` / else nothing. -/
def evaluate (cpu mem cpuThreshold memThreshold : ℚ) : AlertDecision :=
  if cpuThreshold < cpu ∧ memThreshold < mem then .both cpu cpuThreshold mem memThreshold
  else if cpuThreshold < cpu then .cpuOnly cpu cpuThreshold
  else if memThreshold < mem then .memoryOnly mem memThreshold
  else .noAlert

/-- The alert calls a decision gives rise to: each `elif` arm performs exactly
one `send_*` call, the fall-through arm none. -/
def dispatchOf (d : AlertDecision) : List AlertDecision :=
  match d with
  | .noAlert => []
  | d => [d]

/-- `_compute_cpu_usage(stats)` of docker_monitor/monitor.py: projects the two
value fields and returns `sum/len` of each.  `sum([])/len([])` raises
`ZeroDivisionError` in Python, hence `none` on an empty list. -/
def computeCpuUsage (stats : List Sample) : Option (ℚ × ℚ) :=
  let cpuStats := stats.map fun s => s.cpuPercentValue
  let memStats := stats.map fun s => s.memPercentValue
  if cpuStats.length = 0 ∨ memStats.length = 0 then none
  else some (cpuStats.sum / (cpuStats.length : ℚ), memStats.sum / (memStats.length : ℚ))

/-- `_compute_stats_usage(cpu_stats, mem_stats)` of server_monitor/monitor.py:
`sum/len` of each list; `none` models the `ZeroDivisionError` on an empty list. -/
def computeStatsUsage (cpuStats memStats : List ℚ) : Option (ℚ × ℚ) :=
  if cpuStats.length = 0 ∨ memStats.length = 0 then none
  else some (cpuStats.sum / (cpuStats.length : ℚ), memStats.sum / (memStats.length : ℚ))

/-- One value of `decoded_stats_per_container`: the accumulated `"stats"` list
and the `"time"` the window was opened (seconds). -/
structure DockerEntry where
  stats : List Sample
  time : ℚ
deriving DecidableEq

/-- The `decoded_stats_per_container` dict, keyed by container name. -/
abbrev DockerMap := List (String × DockerEntry)

/-- Dict lookup (`d.get(name)` / `d[name]`): the value at the first matching key. -/
def lookupName (m : DockerMap) (n : String) : Option DockerEntry :=
  match m with
  | [] => none
  | (k, v) :: rest => if k = n then some v else lookupName rest n

/-- Dict assignment `d[name] = e`: replaces the entry at the key, or adds it. -/
def setName (m : DockerMap) (n : String) (e : DockerEntry) : DockerMap :=
  match m with
  | [] => [(n, e)]
  | (k, v) :: rest => if k = n then (n, e) :: rest else (k, v) :: setName rest n e

/-- The observable events of one tick, in source order: lock acquire/release
(`with self._lock:`), the target-list call (`containers.list()`), the per-target
sample-source call (`container.stats` / the `psutil` reads), an alert-sink call
(`send_*`), and the in-memory dict operations. -/
inductive LockEvent
  | acquire
  | release
  | listTargets
  | sampleSourceCall (target : String)
  | sinkCall (d : AlertDecision)
  | memAppend (target : String)
  | memReset (target : String)
deriving DecidableEq

/-- Whether an event is an I/O call (sample source or alert sink), the calls the
spec requires to happen outside the critical section. -/
def isIoEvent (e : LockEvent) : Bool :=
  match e with
  | .listTargets => true
  | .sampleSourceCall _ => true
  | .sinkCall _ => true
  | _ => false

/-- The severity level computed inside `_create_cpu_alarm_message` and
`_create_memory_alarm_message` of telegrambot/sender.py. -/
inductive Severity
  | critical
  | high
  | warning
deriving DecidableEq

/-- `severity_ratio = value / threshold` then the `>= 1.5` / `>= 1.2` ladder.
Python float division by zero raises `ZeroDivisionError`, hence `none` when the
threshold is `0`. -/
def severityOf (value threshold : ℚ) : Option Severity :=
  if threshold = 0 then none
  else
    let r := value / threshold
    if r ≥ 3/2 then some .critical
    else if r ≥ 6/5 then some .high
    else some .warning

/-- The semantic payload of `_create_cpu_alarm_message` (string templating and
escaping are cosmetic per the spec): the severity classification together with
the reported values.  `none` when building the message raises. -/
def createCpuAlarmMessage (containerName : String) (cpuPercentage threshold : ℚ) :
    Option (String × Severity × ℚ × ℚ) :=
  (severityOf cpuPercentage threshold).map fun s => (containerName, s, cpuPercentage, threshold)

/-- The semantic payload of `_create_memory_alarm_message`; same ratio ladder. -/
def createMemoryAlarmMessage (containerName : String) (memoryPercentage threshold : ℚ) :
    Option (String × Severity × ℚ × ℚ) :=
  (severityOf memoryPercentage threshold).map fun s => (containerName, s, memoryPercentage, threshold)

/-- The semantic payload of `_create_resource_alert_message`: no ratio is
computed there, only string formatting, so it never raises. -/
def createResourceAlertMessage (containerName cpuPercentage memPercentage : String)
    (cpuThreshold memThreshold : ℚ) : String × String × String × ℚ × ℚ :=
  (containerName, cpuPercentage, memPercentage, cpuThreshold, memThreshold)

/-- `send_cpu_alarm`: builds the message (may raise, propagated — there is no
`try` around the builder), then `_send_message`, whose own body catches every
exception and reports the outcome as a boolean.  `delivered` is that boolean
outcome of the transport. -/
def sendCpuAlarm (containerName : String) (cpuPercentage threshold : ℚ)
    (delivered : Bool) : Option Bool :=
  (createCpuAlarmMessage containerName cpuPercentage threshold).map fun _ => delivered

/-- `send_memory_alert`: same shape as `send_cpu_alarm`. -/
def sendMemoryAlert (containerName : String) (memoryPercentage threshold : ℚ)
    (delivered : Bool) : Option Bool :=
  (createMemoryAlarmMessage containerName memoryPercentage threshold).map fun _ => delivered

/-- `send_resource_alert`: message building is pure string work, `_send_message`
catches everything, so the call always returns its boolean. -/
def sendResourceAlert (containerName cpuPercentage memPercentage : String)
    (cpuThreshold memThreshold : ℚ) (delivered : Bool) : Option Bool :=
  let _ := createResourceAlertMessage containerName cpuPercentage memPercentage
    cpuThreshold memThreshold
  some delivered

/-- Whether the single send call a decision triggers raises before reporting
its boolean: `send_cpu_alarm` / `send_memory_alert` raise exactly when their
threshold is `0` (the severity-ratio division inside the message builder —
queried here on the sender embedding itself; the `delivered` argument is
irrelevant to raising), the combined `send_resource_alert` computes no ratio
and never raises (see `sendResourceAlert`), and a `noAlert` decision performs
no call at all. -/
def dispatchRaises (name : String) (d : AlertDecision) : Bool :=
  match d with
  | .noAlert => false
  | .cpuOnly value threshold => (sendCpuAlarm name value threshold true).isNone
  | .memoryOnly value threshold => (sendMemoryAlert name value threshold true).isNone
  | .both _ _ _ _ => false

/-- The body of the per-container loop of `DockerMonitor._do_monitor`
(monitor.py lines 99-133).  `res = none` models `container.stats` (or the
decode) raising: the inner `except` logs and the loop continues, the map is
untouched.  On success: a first sample creates the entry and `continue`s;
otherwise the elapsed-time test decides between closing the window (compute
means over the OLD list, classify, dispatch at most one send, then seed the
new window with THIS tick's sample) and appending to the open window.
A `ZeroDivisionError` from `_compute_cpu_usage` would also be caught by the
inner `except`, leaving the map untouched; likewise, if the single send call
itself raises (`dispatchRaises`, the zero-threshold severity division of
sender.py) the inner `except` catches it AFTER the send was initiated but
BEFORE the reset lines 128-129 run, so the map is left unchanged.
Returns (new map, send calls initiated, events in statement order). -/
def dockerContainerRun (cfg : StatsConfig) (now : ℚ) (m : DockerMap)
    (name : String) (res : Option Sample) :
    DockerMap × List AlertDecision × List LockEvent :=
  match res with
  | none => (m, [], [.sampleSourceCall name])
  | some decoded =>
    match lookupName m name with
    | none => (setName m name ⟨[decoded], now⟩, [], [.sampleSourceCall name, .memAppend name])
    | some entry =>
      if (now - entry.time) / 60 ≥ cfg.analysisPeriod then
        match computeCpuUsage entry.stats with
        | none => (m, [], [.sampleSourceCall name])
        | some (cpu, mem) =>
          let d := evaluate cpu mem cfg.cpuAlarmThreshold cfg.memoryAlarmThreshold
          if dispatchRaises name d then
            (m, dispatchOf d,
              [.sampleSourceCall name] ++ (dispatchOf d).map LockEvent.sinkCall)
          else
            (setName m name ⟨[decoded], now⟩, dispatchOf d,
              [.sampleSourceCall name] ++ (dispatchOf d).map LockEvent.sinkCall ++
                [.memReset name])
      else
        (setName m name ⟨entry.stats ++ [decoded], entry.time⟩, [],
          [.sampleSourceCall name, .memAppend name])

/-- The accumulator step of the per-container loop: thread the map through,
collect the dispatched alerts and the emitted events in order. -/
def dockerFoldStep (cfg : StatsConfig) (now : ℚ)
    (acc : DockerMap × List AlertDecision × List LockEvent)
    (c : String × Option Sample) : DockerMap × List AlertDecision × List LockEvent :=
  let r := dockerContainerRun cfg now acc.1 c.1 c.2
  (r.1, acc.2.1 ++ r.2.1, acc.2.2 ++ r.2.2)

/-- One full `DockerMonitor._do_monitor` cycle (monitor.py lines 87-140): the
whole body runs inside `with self._lock:`, first `containers.list()`, then the
per-container loop.  `inputs` pairs each listed container with the outcome of
its stats call.  Returns (new map, all dispatched alerts, the event trace). -/
def dockerTickRun (cfg : StatsConfig) (now : ℚ)
    (inputs : List (String × Option Sample)) (m : DockerMap) :
    DockerMap × List AlertDecision × List LockEvent :=
  let body := inputs.foldl (dockerFoldStep cfg now) (m, [], [])
  (body.1, body.2.1, [LockEvent.acquire, LockEvent.listTargets] ++ body.2.2 ++ [LockEvent.release])

/-- The pure output of `DockerMonitor.get_stats` (monitor.py lines 142-154):
for each container, `_compute_cpu_usage` of its current stats list.  The call
has no `try`, so a `ZeroDivisionError` on any entry escapes (`none`). -/
def dockerGetStatsOut : DockerMap → Option (List (String × ℚ × ℚ))
  | [] => some []
  | (name, entry) :: rest =>
    match computeCpuUsage entry.stats, dockerGetStatsOut rest with
    | some (cpu, mem), some tail => some ((name, cpu, mem) :: tail)
    | _, _ => none

/-- `DockerMonitor.get_stats`: builds a fresh `simple_stats` dict and performs
no assignment to the aggregate state, so the map is returned unchanged. -/
def dockerGetStats (m : DockerMap) : Option (List (String × ℚ × ℚ)) × DockerMap :=
  (dockerGetStatsOut m, m)

/-- The state of `ServerMonitor`: the `server_stats` cpu/memory lists and
`_last_analysis_time` (seconds). -/
structure ServerState where
  cpuStats : List ℚ
  memStats : List ℚ
  lastAnalysisTime : ℚ
deriving DecidableEq

/-- Round-half-to-even of a rational to an integer, the behaviour of Python's
builtin `round` on the modelled (exact) values. -/
def roundHalfEven (q : ℚ) : ℤ :=
  let n := ⌊q⌋
  let frac := q - (n : ℚ)
  if frac < 1/2 then n
  else if 1/2 < frac then n + 1
  else if n % 2 = 0 then n else n + 1

/-- `round(x, 2)` as used on the server means before comparison with the thresholds. -/
def round2 (q : ℚ) : ℚ := (roundHalfEven (q * 100) : ℚ) / 100

/-- `ServerMonitor._do_monitor` (monitor.py lines 28-54), entirely inside
`with self._lock:`.  If the window expired: compute means over the accumulated
lists (no `try` here, so an empty-list `ZeroDivisionError` aborts the whole
tick — outer `none`; the `with` block still releases the lock), round, print,
classify, dispatch at most one send, then clear both lists and advance
`_last_analysis_time`.  A raising send (`dispatchRaises`) likewise aborts the
tick after the send was initiated but before lines 47-49 clear the lists and
advance the clock — outer `none`, state untouched, lock released.
Otherwise: read the psutil sample and append it.
Returns (Option (new state, alerts), event trace). -/
def serverTickRun (cfg : StatsConfig) (now sampleCpu sampleMem : ℚ)
    (st : ServerState) :
    Option (ServerState × List AlertDecision) × List LockEvent :=
  if (now - st.lastAnalysisTime) / 60 ≥ cfg.analysisPeriod then
    match computeStatsUsage st.cpuStats st.memStats with
    | none => (none, [.acquire, .release])
    | some (cpu, memory) =>
      let cpuRounded := round2 cpu
      let memoryRounded := round2 memory
      let d := evaluate cpuRounded memoryRounded cfg.cpuAlarmThreshold cfg.memoryAlarmThreshold
      if dispatchRaises "server" d then
        (none, [.acquire] ++ (dispatchOf d).map LockEvent.sinkCall ++ [.release])
      else
        (some (⟨[], [], now⟩, dispatchOf d),
          [.acquire] ++ (dispatchOf d).map LockEvent.sinkCall ++ [.memReset "server", .release])
  else
    (some (⟨st.cpuStats ++ [sampleCpu], st.memStats ++ [sampleMem], st.lastAnalysisTime⟩, []),
      [.acquire, .sampleSourceCall "server", .memAppend "server", .release])

/-- `ServerMonitor.get_stats` (monitor.py lines 56-58): returns `self.server_stats`
itself — the raw cpu/memory sample lists — with no assignment to the state. -/
def serverGetStats (st : ServerState) : (List ℚ × List ℚ) × ServerState :=
  ((st.cpuStats, st.memStats), st)

/-- Whether an event is the lock acquisition. -/
def isAcquire : LockEvent → Bool
  | .acquire => true
  | _ => false

/-- Whether an event is the lock release. -/
def isRelease : LockEvent → Bool
  | .release => true
  | _ => false

/-- Annotates each event of a trace with whether the lock is held when it
happens, threading the current hold depth (the source uses one `RLock`). -/
def markHeld : Nat → List LockEvent → List (LockEvent × Bool)
  | _, [] => []
  | d, e :: rest =>
    (e, decide (0 < d)) ::
      (if isAcquire e then markHeld (d + 1) rest
       else if isRelease e then markHeld (d - 1) rest
       else markHeld d rest)

/-- Repeated `list.append` of each element of `rest` onto `init`, the way a
window's stats list is built up tick by tick. -/
def appendAll {α : Type} (init rest : List α) : List α :=
  rest.foldl (fun acc s => acc ++ [s]) init

/-- The arithmetic mean, written from the spec's words ("exact arithmetic mean
of CPU values and of memory values"), used to compare code results against. -/
def meanQ (l : List ℚ) : ℚ := l.sum / (l.length : ℚ)

/-- The snapshot mapping the spec describes for the server monitor, following
the spec's words: "mapping target → mean_cpu, mean_mem … over whatever samples
are currently accumulated in the open window". -/
def serverSnapshotSpec (st : ServerState) : ℚ × ℚ :=
  (meanQ st.cpuStats, meanQ st.memStats)


/-- The docker aggregate states reachable from startup: the map starts empty
(`self.decoded_stats_per_container = {}`) and evolves only by monitor ticks
(`get_stats` performs no assignment). -/
inductive DockerReachable : DockerMap → Prop
  | init : DockerReachable []
  | tick (cfg : StatsConfig) (now : ℚ) (inputs : List (String × Option Sample))
      (m : DockerMap) : DockerReachable m →
      DockerReachable (dockerTickRun cfg now inputs m).1

/-- The config of the spec's concrete scenario: cpu threshold 50, a memory
threshold that never fires there, analysis window 0.01 min. -/
def cfgScenario : StatsConfig := ⟨50, 100, 1/100⟩

/-- The default config of `stats_config.py`: thresholds 0.001, window 1 min. -/
def cfgDefault : StatsConfig := ⟨1/1000, 1/1000, 1⟩

/-- Repeated `append` builds exactly the concatenation. -/
theorem appendAll_eq {α : Type} (init rest : List α) : appendAll init rest = init ++ rest := by
  unfold appendAll
  induction rest generalizing init with
  | nil => simp
  | cons c cs ih =>
    rw [List.foldl_cons, ih]
    simp

/-- Claim C2 (confirmed): the threshold comparison of both monitors is strict;
means exactly equal to the thresholds classify as no alert, and no send call is
dispatched for that decision. -/
theorem C2_threshold_boundary_noAlert (cpuThreshold memThreshold : ℚ) :
    evaluate cpuThreshold memThreshold cpuThreshold memThreshold = .noAlert ∧
    dispatchOf (evaluate cpuThreshold memThreshold cpuThreshold memThreshold) = [] := by
  have h : evaluate cpuThreshold memThreshold cpuThreshold memThreshold = .noAlert := by
    simp [evaluate]
  exact ⟨h, by rw [h]; rfl⟩

/-- Claim C3 (confirmed): whenever both means strictly exceed their thresholds
the classification is the single combined decision `both`, and exactly one
alert call is dispatched — never a cpu-only plus a memory-only pair. -/
theorem C3_dual_violation_both (cpu mem cpuThreshold memThreshold : ℚ)
    (hc : cpuThreshold < cpu) (hm : memThreshold < mem) :
    evaluate cpu mem cpuThreshold memThreshold = .both cpu cpuThreshold mem memThreshold ∧
    dispatchOf (evaluate cpu mem cpuThreshold memThreshold) =
      [.both cpu cpuThreshold mem memThreshold] := by
  have h : evaluate cpu mem cpuThreshold memThreshold =
      .both cpu cpuThreshold mem memThreshold := by
    unfold evaluate
    rw [if_pos ⟨hc, hm⟩]
  exact ⟨h, by rw [h]; rfl⟩

/-- Witness for C3 at the spec's concrete input `evaluate(10, 10, 5, 5)`. -/
theorem C3_dual_violation_both_witness :
    ((5 : ℚ) < 10 ∧ (5 : ℚ) < 10) ∧ evaluate 10 10 5 5 = .both 10 5 10 5 :=
  ⟨⟨by norm_num, by norm_num⟩, (C3_dual_violation_both 10 10 5 5 (by norm_num) (by norm_num)).1⟩

/-- Claim C4 (confirmed): for every window built from a first sample by
repeated appends, the close computation returns exactly the unweighted
arithmetic mean of the appended CPU values and of the appended memory values —
for the docker close (`_compute_cpu_usage`) and the server close
(`_compute_stats_usage`) alike. -/
theorem C4_close_exact_mean (s0 : Sample) (rest : List Sample)
    (c0 m0 : ℚ) (cs ms : List ℚ) :
    computeCpuUsage (appendAll [s0] rest) =
      some (meanQ ((s0 :: rest).map fun s => s.cpuPercentValue),
        meanQ ((s0 :: rest).map fun s => s.memPercentValue)) ∧
    computeStatsUsage (appendAll [c0] cs) (appendAll [m0] ms) =
      some (meanQ (c0 :: cs), meanQ (m0 :: ms)) := by
  rw [appendAll_eq, appendAll_eq, appendAll_eq]
  constructor
  · simp [computeCpuUsage, meanQ]
  · simp [computeStatsUsage, meanQ]

/-- Claim C5 (code_bug): after a window close the server sample lists are
empty; a second expiry before any append reaches `_compute_stats_usage([], [])`
which divides by zero — the tick raises instead of returning `(0, 0, 0)` and
resetting the clock as the spec requires. -/
theorem C5_empty_close_divzero :
    (serverTickRun cfgScenario 60 0 0 ⟨[40], [50], 0⟩).1 =
      some (⟨[], [], 60⟩, []) ∧
    (serverTickRun cfgScenario 120 0 0 ⟨[], [], 60⟩).1 = none ∧
    computeStatsUsage [] [] = none := by
  refine ⟨?_, ?_, rfl⟩
  · norm_num [serverTickRun, computeStatsUsage, round2, roundHalfEven, evaluate,
      dispatchOf, dispatchRaises, cfgScenario]
  · norm_num [serverTickRun, computeStatsUsage, cfgScenario]

/-- Counterexample for C1: under the spec's own scenario (cpu threshold 50,
window 0.01 min, one tick per second) feeding `[40, 80]`, the tick that closes
the window computes the mean over the previously accumulated list only — mean
40, not 60 — and dispatches nothing, contradicting the claimed
`CpuOnly(60, 50)`. -/
theorem C1_closing_tick_sample_excluded_cex :
    (dockerTickRun cfgScenario 0 [("web", some ⟨40, 0⟩)] []).1 =
      [("web", ⟨[⟨40, 0⟩], 0⟩)] ∧
    (dockerTickRun cfgScenario 1 [("web", some ⟨80, 0⟩)]
      [("web", ⟨[⟨40, 0⟩], 0⟩)]).2.1 = [] ∧
    computeCpuUsage [⟨40, 0⟩] = some (40, 0) ∧
    ([] : List AlertDecision) ≠ [AlertDecision.cpuOnly 60 50] := by
  refine ⟨?_, ?_, ?_, by simp⟩
  · norm_num [dockerTickRun, dockerFoldStep, dockerContainerRun, lookupName, setName]
  · norm_num [dockerTickRun, dockerFoldStep, dockerContainerRun, lookupName, setName,
      computeCpuUsage, evaluate, dispatchOf, dispatchRaises, cfgScenario, List.cons_ne_nil]
  · norm_num [computeCpuUsage]

/-- Counterexample for C6: `ServerMonitor.get_stats` returns the raw
accumulated sample lists, not the per-target means the claim describes — on
the open window `cpu = [40, 60]`, `mem = [10, 30]` the means are `(50, 20)`
but the call yields the lists themselves. -/
theorem C6_server_snapshot_cex :
    (serverGetStats ⟨[40, 60], [10, 30], 0⟩).1 = ([40, 60], [10, 30]) ∧
    serverSnapshotSpec ⟨[40, 60], [10, 30], 0⟩ = (50, 20) ∧
    ((serverGetStats ⟨[40, 60], [10, 30], 0⟩).1).1 ≠
      [(serverSnapshotSpec ⟨[40, 60], [10, 30], 0⟩).1] := by
  refine ⟨rfl, ?_, ?_⟩
  · norm_num [serverSnapshotSpec, meanQ]
  · norm_num [serverGetStats, serverSnapshotSpec, meanQ]

/-- Counterexample for C8: with a threshold of `0` — permitted by the
configuration contract — the severity-ratio division inside the message
builders raises `ZeroDivisionError`, and the exception escapes
`send_cpu_alarm` / `send_memory_alert` instead of being reported as `False`. -/
theorem C8_send_raises_cex :
    sendCpuAlarm "web" 10 0 true = none ∧ sendMemoryAlert "web" 10 0 true = none := by
  constructor <;>
    simp [sendCpuAlarm, sendMemoryAlert, createCpuAlarmMessage, createMemoryAlarmMessage,
      severityOf]

/-- On a non-empty list the docker close computation returns exactly the two
arithmetic means. -/
theorem computeCpuUsage_of_ne_nil (l : List Sample) (h : l ≠ []) :
    computeCpuUsage l = some (meanQ (l.map fun s => s.cpuPercentValue),
      meanQ (l.map fun s => s.memPercentValue)) := by
  simp [computeCpuUsage, meanQ, List.length_eq_zero, h]

/-- When every entry's stats list is non-empty, `get_stats` produces the whole
per-target mean mapping. -/
theorem getStatsOut_eq (m : DockerMap) (hm : ∀ p ∈ m, p.2.stats ≠ []) :
    dockerGetStatsOut m = some (m.map fun p =>
      (p.1, meanQ (p.2.stats.map fun s => s.cpuPercentValue),
        meanQ (p.2.stats.map fun s => s.memPercentValue))) := by
  induction m with
  | nil => rfl
  | cons p rest ih =>
    obtain ⟨name, entry⟩ := p
    have h1 : entry.stats ≠ [] := hm (name, entry) (by simp)
    have h2 : ∀ q ∈ rest, q.2.stats ≠ [] := fun q hq => hm q (by simp [hq])
    simp only [dockerGetStatsOut, computeCpuUsage_of_ne_nil _ h1, ih h2, List.map_cons]

/-- Claim C1 (corrected): per tick the docker monitor checks window expiry
BEFORE appending: on a closing tick the send calls are computed from the
previously accumulated list only; when the dispatched send does not raise, the
closing tick's sample seeds the next window, and when it raises (zero
threshold, caught by the per-container except) the reset is skipped and the
aggregate is left unchanged.  Under the spec's scenario the samples must both
be appended on pre-close ticks: then `[40, 60]` gives mean 50 and no alert,
and `[40, 80]` gives mean 60 and `CpuOnly(60, 50)` on the closing tick. -/
theorem C1_window_close_order :
    (∀ (cfg : StatsConfig) (now : ℚ) (m : DockerMap) (name : String) (s : Sample)
      (entry : DockerEntry) (cpu mem : ℚ),
      lookupName m name = some entry →
      (now - entry.time) / 60 ≥ cfg.analysisPeriod →
      computeCpuUsage entry.stats = some (cpu, mem) →
      (dockerContainerRun cfg now m name (some s)).2.1 =
        dispatchOf (evaluate cpu mem cfg.cpuAlarmThreshold cfg.memoryAlarmThreshold) ∧
      (dispatchRaises name (evaluate cpu mem cfg.cpuAlarmThreshold
          cfg.memoryAlarmThreshold) = false →
        (dockerContainerRun cfg now m name (some s)).1 = setName m name ⟨[s], now⟩) ∧
      (dispatchRaises name (evaluate cpu mem cfg.cpuAlarmThreshold
          cfg.memoryAlarmThreshold) = true →
        (dockerContainerRun cfg now m name (some s)).1 = m)) ∧
    (dockerTickRun cfgScenario (1/2) [("web", some ⟨60, 0⟩)]
      [("web", ⟨[⟨40, 0⟩], 0⟩)]).1 = [("web", ⟨[⟨40, 0⟩, ⟨60, 0⟩], 0⟩)] ∧
    (dockerTickRun cfgScenario 1 [("web", some ⟨0, 0⟩)]
      [("web", ⟨[⟨40, 0⟩, ⟨60, 0⟩], 0⟩)]).2.1 = [] ∧
    (dockerTickRun cfgScenario 1 [("web", some ⟨0, 0⟩)]
      [("web", ⟨[⟨40, 0⟩, ⟨80, 0⟩], 0⟩)]).2.1 = [.cpuOnly 60 50] ∧
    (dockerTickRun ⟨0, 100, 1⟩ 60 [("web", some ⟨10, 0⟩)]
      [("web", ⟨[⟨40, 0⟩], 0⟩)]).1 = [("web", ⟨[⟨40, 0⟩], 0⟩)] := by
  refine ⟨?_, ?_, ?_, ?_, ?_⟩
  · intro cfg now m name s entry cpu mem hlook hexp hcomp
    unfold dockerContainerRun
    rw [hlook]
    dsimp only
    rw [if_pos hexp, hcomp]
    dsimp only
    cases hdr : dispatchRaises name (evaluate cpu mem cfg.cpuAlarmThreshold
        cfg.memoryAlarmThreshold) with
    | false =>
      rw [if_neg Bool.false_ne_true]
      exact ⟨rfl, fun _ => rfl, fun hc => Bool.noConfusion hc⟩
    | true =>
      rw [if_pos rfl]
      exact ⟨rfl, fun hc => Bool.noConfusion hc, fun _ => rfl⟩
  · norm_num [dockerTickRun, dockerFoldStep, dockerContainerRun, lookupName, setName,
      cfgScenario]
  · norm_num [dockerTickRun, dockerFoldStep, dockerContainerRun, lookupName, setName,
      computeCpuUsage, evaluate, dispatchOf, dispatchRaises, cfgScenario, List.cons_ne_nil]
  · norm_num [dockerTickRun, dockerFoldStep, dockerContainerRun, lookupName, setName,
      computeCpuUsage, evaluate, dispatchOf, dispatchRaises, sendCpuAlarm,
      createCpuAlarmMessage, severityOf, Option.isNone, cfgScenario, List.cons_ne_nil]
  · norm_num [dockerTickRun, dockerFoldStep, dockerContainerRun, lookupName, setName,
      computeCpuUsage, evaluate, dispatchOf, dispatchRaises, sendCpuAlarm,
      createCpuAlarmMessage, severityOf, Option.isNone, cfgScenario, List.cons_ne_nil]

/-- Witness for C1: the general close-order fact applied on the scenario's
closing tick — the send does not raise there and the next window is seeded
with the closing sample `80` at time 1. -/
theorem C1_window_close_order_witness :
    (lookupName [("web", ⟨[⟨40, 0⟩], 0⟩)] "web" = some ⟨[⟨40, 0⟩], 0⟩ ∧
      ((1 : ℚ) - (⟨[⟨40, 0⟩], (0 : ℚ)⟩ : DockerEntry).time) / 60 ≥
        cfgScenario.analysisPeriod ∧
      computeCpuUsage [⟨40, 0⟩] = some (40, 0) ∧
      dispatchRaises "web" (evaluate 40 0 cfgScenario.cpuAlarmThreshold
        cfgScenario.memoryAlarmThreshold) = false) ∧
    (dockerContainerRun cfgScenario 1 [("web", ⟨[⟨40, 0⟩], 0⟩)] "web"
      (some ⟨80, 0⟩)).1 = setName [("web", ⟨[⟨40, 0⟩], 0⟩)] "web" ⟨[⟨80, 0⟩], 1⟩ :=
  ⟨⟨by simp [lookupName], by norm_num [cfgScenario], by norm_num [computeCpuUsage],
      by norm_num [dispatchRaises, evaluate, cfgScenario]⟩,
    (C1_window_close_order.1 cfgScenario 1 [("web", ⟨[⟨40, 0⟩], 0⟩)] "web" ⟨80, 0⟩
      ⟨[⟨40, 0⟩], 0⟩ 40 0 (by simp [lookupName]) (by norm_num [cfgScenario])
      (by norm_num [computeCpuUsage])).2.1
      (by norm_num [dispatchRaises, evaluate, cfgScenario])⟩

/-- Claim C6 (corrected): `DockerMonitor.get_stats` does return the per-target
mean mapping over the open window and leaves the aggregate map unchanged, but
`ServerMonitor.get_stats` returns the raw accumulated sample lists themselves
(not means), also without mutating the state. -/
theorem C6_snapshot_shape :
    (∀ m : DockerMap, (∀ p ∈ m, p.2.stats ≠ []) →
      dockerGetStats m = (some (m.map fun p =>
        (p.1, meanQ (p.2.stats.map fun s => s.cpuPercentValue),
          meanQ (p.2.stats.map fun s => s.memPercentValue))), m)) ∧
    (∀ st : ServerState, serverGetStats st = ((st.cpuStats, st.memStats), st)) := by
  refine ⟨?_, fun st => rfl⟩
  intro m hm
  unfold dockerGetStats
  rw [getStatsOut_eq m hm]

/-- Witness for C6: the docker snapshot of a one-container state with an open
window `[40, 60]` × `[10, 30]`. -/
theorem C6_snapshot_shape_witness :
    (∀ p ∈ ([("web", ⟨[⟨40, 10⟩, ⟨60, 30⟩], 0⟩)] : DockerMap), p.2.stats ≠ []) ∧
    dockerGetStats [("web", ⟨[⟨40, 10⟩, ⟨60, 30⟩], 0⟩)] =
      (some ((([("web", ⟨[⟨40, 10⟩, ⟨60, 30⟩], 0⟩)] : DockerMap)).map fun p =>
        (p.1, meanQ (p.2.stats.map fun s => s.cpuPercentValue),
          meanQ (p.2.stats.map fun s => s.memPercentValue))),
        [("web", ⟨[⟨40, 10⟩, ⟨60, 30⟩], 0⟩)]) :=
  ⟨by simp, C6_snapshot_shape.1 [("web", ⟨[⟨40, 10⟩, ⟨60, 30⟩], 0⟩)] (by simp)⟩

/-- Folding the per-container step from accumulators that agree on the map and
the alerts yields the same final map and alerts (the event components may
differ). -/
theorem dockerFold_proj (cfg : StatsConfig) (now : ℚ)
    (l : List (String × Option Sample)) :
    ∀ a b : DockerMap × List AlertDecision × List LockEvent,
      a.1 = b.1 → a.2.1 = b.2.1 →
      (l.foldl (dockerFoldStep cfg now) a).1 = (l.foldl (dockerFoldStep cfg now) b).1 ∧
      (l.foldl (dockerFoldStep cfg now) a).2.1 =
        (l.foldl (dockerFoldStep cfg now) b).2.1 := by
  induction l with
  | nil => exact fun a b h1 h2 => ⟨h1, h2⟩
  | cons c cs ih =>
    intro a b h1 h2
    simp only [List.foldl_cons]
    apply ih
    · simp [dockerFoldStep, h1]
    · simp [dockerFoldStep, h1, h2]

/-- Claim C7 (confirmed): a target whose stats call fails is skipped for the
tick with its aggregate untouched — the per-container handler returns the map
unchanged and dispatches nothing — and the rest of the cycle proceeds exactly
as if the failing target were absent; the tick itself never aborts. -/
theorem C7_failure_isolation (cfg : StatsConfig) (now : ℚ) (name : String)
    (pre post : List (String × Option Sample)) (m : DockerMap) :
    dockerContainerRun cfg now m name none = (m, [], [.sampleSourceCall name]) ∧
    (dockerTickRun cfg now (pre ++ (name, none) :: post) m).1 =
      (dockerTickRun cfg now (pre ++ post) m).1 ∧
    (dockerTickRun cfg now (pre ++ (name, none) :: post) m).2.1 =
      (dockerTickRun cfg now (pre ++ post) m).2.1 := by
  refine ⟨rfl, ?_⟩
  have key : ∀ (pre : List (String × Option Sample))
      (acc : DockerMap × List AlertDecision × List LockEvent),
      ((pre ++ (name, none) :: post).foldl (dockerFoldStep cfg now) acc).1 =
        ((pre ++ post).foldl (dockerFoldStep cfg now) acc).1 ∧
      ((pre ++ (name, none) :: post).foldl (dockerFoldStep cfg now) acc).2.1 =
        ((pre ++ post).foldl (dockerFoldStep cfg now) acc).2.1 := by
    intro pre
    induction pre with
    | nil =>
      intro acc
      simp only [List.nil_append, List.foldl_cons]
      apply dockerFold_proj
      · rfl
      · simp [dockerFoldStep, dockerContainerRun]
    | cons c cs ih =>
      intro acc
      simp only [List.cons_append, List.foldl_cons]
      exact ih _
  exact key pre (m, [], [])

/-- Claim C8 (corrected): `send_resource_alert` never raises, and
`send_cpu_alarm` / `send_memory_alert` never raise for any input whose
threshold is nonzero — the outcome is always the transport's boolean.  (With
threshold `0`, shown in the counterexample, the severity-ratio division
raises.) -/
theorem C8_send_no_raise :
    (∀ (n : String) (v t : ℚ) (d : Bool), t ≠ 0 → sendCpuAlarm n v t d = some d) ∧
    (∀ (n : String) (v t : ℚ) (d : Bool), t ≠ 0 → sendMemoryAlert n v t d = some d) ∧
    (∀ (n cs ms : String) (ct mt : ℚ) (d : Bool),
      sendResourceAlert n cs ms ct mt d = some d) := by
  refine ⟨?_, ?_, fun _ _ _ _ _ _ => rfl⟩
  · intro n v t d ht
    unfold sendCpuAlarm createCpuAlarmMessage severityOf
    rw [if_neg ht]
    dsimp only
    split_ifs <;> rfl
  · intro n v t d ht
    unfold sendMemoryAlert createMemoryAlarmMessage severityOf
    rw [if_neg ht]
    dsimp only
    split_ifs <;> rfl

/-- Witness for C8: a cpu alarm with threshold 5 reports the transport's
`false` outcome as a boolean, raising nothing. -/
theorem C8_send_no_raise_witness :
    (5 : ℚ) ≠ 0 ∧ sendCpuAlarm "web" 10 5 false = some false :=
  ⟨by norm_num, C8_send_no_raise.1 "web" 10 5 false (by norm_num)⟩


/-- The per-container handler emits only sample, sink and memory events —
never a lock acquire or release of its own. -/
theorem containerRun_no_lock (cfg : StatsConfig) (now : ℚ) (m : DockerMap)
    (name : String) (res : Option Sample) :
    ∀ e ∈ (dockerContainerRun cfg now m name res).2.2,
      e ≠ LockEvent.acquire ∧ e ≠ LockEvent.release := by
  have key : ∀ x : LockEvent, x = LockEvent.acquire ∨ x = LockEvent.release →
      x ∉ (dockerContainerRun cfg now m name res).2.2 := by
    intro x hx he
    unfold dockerContainerRun at he
    rcases res with _ | s
    · rcases hx with rfl | rfl <;> simp at he
    · rcases hl : lookupName m name with _ | entry <;> rw [hl] at he <;> dsimp only at he
      · rcases hx with rfl | rfl <;> simp at he
      · split_ifs at he
        · rcases hc : computeCpuUsage entry.stats with _ | ⟨cpu, mem⟩ <;>
            rw [hc] at he <;> dsimp only at he
          · rcases hx with rfl | rfl <;> simp at he
          · split_ifs at he <;> rcases hx with rfl | rfl <;> simp at he
        · rcases hx with rfl | rfl <;> simp at he
  exact fun e he =>
    ⟨fun h => key e (Or.inl h) (h ▸ he), fun h => key e (Or.inr h) (h ▸ he)⟩

/-- The whole per-container loop emits no lock events of its own. -/
theorem tickBody_no_lock (cfg : StatsConfig) (now : ℚ) :
    ∀ (inputs : List (String × Option Sample))
      (acc : DockerMap × List AlertDecision × List LockEvent),
      (∀ e ∈ acc.2.2, e ≠ LockEvent.acquire ∧ e ≠ LockEvent.release) →
      ∀ e ∈ (inputs.foldl (dockerFoldStep cfg now) acc).2.2,
        e ≠ LockEvent.acquire ∧ e ≠ LockEvent.release := by
  intro inputs
  induction inputs with
  | nil => exact fun acc hacc => hacc
  | cons c cs ih =>
    intro acc hacc
    simp only [List.foldl_cons]
    apply ih
    intro e he
    simp only [dockerFoldStep, List.mem_append] at he
    rcases he with he | he
    · exact hacc e he
    · exact containerRun_no_lock cfg now acc.1 c.1 c.2 e he

/-- An event other than the acquire fails the acquire test. -/
theorem isAcquire_eq_false (e : LockEvent) (h : e ≠ LockEvent.acquire) :
    isAcquire e = false := by
  cases e <;> first | rfl | exact absurd rfl h

/-- An event other than the release fails the release test. -/
theorem isRelease_eq_false (e : LockEvent) (h : e ≠ LockEvent.release) :
    isRelease e = false := by
  cases e <;> first | rfl | exact absurd rfl h

/-- Through a lock-event-free block the hold depth is unchanged and every event
is annotated as held (when the depth is positive on entry). -/
theorem markHeld_free_append (body : List LockEvent) (d : Nat) (tail : List LockEvent)
    (hd : 0 < d) (hb : ∀ e ∈ body, e ≠ LockEvent.acquire ∧ e ≠ LockEvent.release) :
    markHeld d (body ++ tail) = body.map (fun e => (e, true)) ++ markHeld d tail := by
  induction body with
  | nil => simp
  | cons e es ih =>
    have he := hb e (by simp)
    have hes : ∀ x ∈ es, x ≠ LockEvent.acquire ∧ x ≠ LockEvent.release :=
      fun x hx => hb x (by simp [hx])
    rw [List.cons_append, markHeld, isAcquire_eq_false e he.1, isRelease_eq_false e he.2]
    simp only [Bool.false_eq_true, if_false, ih hes, List.map_cons, List.cons_append,
      decide_eq_true hd]

/-- Unfolding step: the opening acquire is not yet held, everything after runs
at depth 1. -/
theorem markHeld_acquire_cons (rest : List LockEvent) :
    markHeld 0 (LockEvent.acquire :: rest) =
      (LockEvent.acquire, false) :: markHeld 1 rest := by
  simp [markHeld, isAcquire]

/-- Unfolding step for a non-lock event. -/
theorem markHeld_plain_cons (d : Nat) (e : LockEvent) (rest : List LockEvent)
    (h1 : e ≠ LockEvent.acquire) (h2 : e ≠ LockEvent.release) :
    markHeld d (e :: rest) = (e, decide (0 < d)) :: markHeld d rest := by
  rw [markHeld, isAcquire_eq_false e h1, isRelease_eq_false e h2]
  simp

/-- Counterexample for C9: in a docker tick that closes a window and alerts,
the alert-sink call and the sample-source call both happen while the lock is
held — the `with self._lock:` block spans the whole cycle. -/
theorem C9_lock_io_cex :
    (LockEvent.sinkCall (.both 40 (1/1000) 50 (1/1000)), true) ∈
      markHeld 0 (dockerTickRun cfgDefault 60 [("web", some ⟨10, 10⟩)]
        [("web", ⟨[⟨40, 50⟩], 0⟩)]).2.2 ∧
    (LockEvent.sampleSourceCall "web", true) ∈
      markHeld 0 (dockerTickRun cfgDefault 60 [("web", some ⟨10, 10⟩)]
        [("web", ⟨[⟨40, 50⟩], 0⟩)]).2.2 := by
  constructor <;>
    norm_num [dockerTickRun, dockerFoldStep, dockerContainerRun, lookupName, setName,
      computeCpuUsage, evaluate, dispatchOf, cfgDefault, markHeld, isAcquire, isRelease,
      List.cons_ne_nil]

/-- Claim C9 (corrected): the critical section is NOT limited to the in-memory
operations — in both monitors the lock is held for the entire tick body, so
every sample-source call and every alert-sink call of a tick happens while the
lock is held, and alert dispatch happens before the lock is released. -/
theorem C9_lock_whole_tick :
    (∀ (cfg : StatsConfig) (now : ℚ) (inputs : List (String × Option Sample))
      (m : DockerMap) (p : LockEvent × Bool),
      p ∈ markHeld 0 (dockerTickRun cfg now inputs m).2.2 →
      isIoEvent p.1 = true → p.2 = true) ∧
    (∀ (cfg : StatsConfig) (now sampleCpu sampleMem : ℚ) (st : ServerState)
      (p : LockEvent × Bool),
      p ∈ markHeld 0 (serverTickRun cfg now sampleCpu sampleMem st).2 →
      isIoEvent p.1 = true → p.2 = true) := by
  constructor
  · intro cfg now inputs m p hp hio
    have hbody : ∀ e ∈ (inputs.foldl (dockerFoldStep cfg now) (m, [], [])).2.2,
        e ≠ LockEvent.acquire ∧ e ≠ LockEvent.release :=
      tickBody_no_lock cfg now inputs (m, [], []) (by intro e he; simp at he)
    have htr : markHeld 0 (dockerTickRun cfg now inputs m).2.2 =
        (LockEvent.acquire, false) :: ((LockEvent.listTargets, decide (0 < 1)) ::
          (((inputs.foldl (dockerFoldStep cfg now) (m, [], [])).2.2).map
              (fun e => (e, true)) ++ markHeld 1 [LockEvent.release])) := by
      show markHeld 0 ([LockEvent.acquire, LockEvent.listTargets] ++
          (inputs.foldl (dockerFoldStep cfg now) (m, [], [])).2.2 ++
            [LockEvent.release]) = _
      rw [List.append_assoc, List.cons_append, List.cons_append, List.nil_append,
        markHeld_acquire_cons,
        markHeld_plain_cons 1 LockEvent.listTargets _ (by simp) (by simp),
        markHeld_free_append _ 1 _ (by norm_num) hbody]
    rw [htr] at hp
    rcases List.mem_cons.mp hp with rfl | hp
    · simp [isIoEvent] at hio
    rcases List.mem_cons.mp hp with rfl | hp
    · rfl
    rcases List.mem_append.mp hp with hp | hp
    · obtain ⟨e, _, rfl⟩ := List.mem_map.mp hp
      rfl
    · rw [show markHeld 1 [LockEvent.release] = [(LockEvent.release, true)] from by
        simp [markHeld, isAcquire, isRelease]] at hp
      rw [List.mem_singleton] at hp
      subst hp
      rfl
  · intro cfg now sampleCpu sampleMem st p hp hio
    unfold serverTickRun at hp
    split_ifs at hp
    · rcases hc : computeStatsUsage st.cpuStats st.memStats with _ | ⟨cpu, memory⟩ <;>
        rw [hc] at hp <;> dsimp only at hp
      · simp [markHeld, isAcquire, isRelease] at hp
        rcases hp with rfl | rfl <;> simp [isIoEvent] at hio
      · have hfree : ∀ e ∈ (dispatchOf (evaluate (round2 cpu) (round2 memory)
            cfg.cpuAlarmThreshold cfg.memoryAlarmThreshold)).map LockEvent.sinkCall,
            e ≠ LockEvent.acquire ∧ e ≠ LockEvent.release := by
          intro e he
          obtain ⟨d, _, rfl⟩ := List.mem_map.mp he
          exact ⟨by simp, by simp⟩
        split_ifs at hp <;> dsimp only at hp
        · rw [List.append_assoc, List.cons_append, List.nil_append,
            markHeld_acquire_cons,
            markHeld_free_append _ 1 _ (by norm_num) hfree] at hp
          rcases List.mem_cons.mp hp with rfl | hp
          · simp [isIoEvent] at hio
          rcases List.mem_append.mp hp with hp | hp
          · obtain ⟨e, _, rfl⟩ := List.mem_map.mp hp
            rfl
          · rw [show markHeld 1 [LockEvent.release] = [(LockEvent.release, true)] from by
              simp [markHeld, isAcquire, isRelease]] at hp
            rw [List.mem_singleton] at hp
            subst hp
            rfl
        · rw [List.append_assoc, List.cons_append, List.nil_append,
            markHeld_acquire_cons,
            markHeld_free_append _ 1 _ (by norm_num) hfree] at hp
          rcases List.mem_cons.mp hp with rfl | hp
          · simp [isIoEvent] at hio
          rcases List.mem_append.mp hp with hp | hp
          · obtain ⟨e, _, rfl⟩ := List.mem_map.mp hp
            rfl
          · rw [show markHeld 1 [LockEvent.memReset "server", LockEvent.release] =
              [(LockEvent.memReset "server", true), (LockEvent.release, true)] from by
                simp [markHeld, isAcquire, isRelease]] at hp
            rcases List.mem_cons.mp hp with rfl | hp
            · rfl
            · rw [List.mem_singleton] at hp
              subst hp
              rfl
    · simp [markHeld, isAcquire, isRelease] at hp
      rcases hp with rfl | rfl | rfl | rfl
      · simp [isIoEvent] at hio
      · rfl
      · rfl
      · rfl

/-- Witness for C9: the sink call of the counterexample tick, fed through the
general statement, is annotated as held. -/
theorem C9_lock_whole_tick_witness :
    ((LockEvent.sinkCall (.both 40 (1/1000) 50 (1/1000)), true) ∈
      markHeld 0 (dockerTickRun cfgDefault 60 [("web", some ⟨10, 10⟩)]
        [("web", ⟨[⟨40, 50⟩], 0⟩)]).2.2 ∧
      isIoEvent (LockEvent.sinkCall (.both 40 (1/1000) 50 (1/1000))) = true) ∧
    ((LockEvent.sinkCall (.both 40 (1/1000) 50 (1/1000)), true) : LockEvent × Bool).2
      = true :=
  ⟨⟨by norm_num [dockerTickRun, dockerFoldStep, dockerContainerRun, lookupName, setName,
      computeCpuUsage, evaluate, dispatchOf, cfgDefault, markHeld, isAcquire, isRelease,
      List.cons_ne_nil], rfl⟩,
    C9_lock_whole_tick.1 cfgDefault 60 [("web", some ⟨10, 10⟩)]
      [("web", ⟨[⟨40, 50⟩], 0⟩)]
      (LockEvent.sinkCall (.both 40 (1/1000) 50 (1/1000)), true)
      (by norm_num [dockerTickRun, dockerFoldStep, dockerContainerRun, lookupName, setName,
        computeCpuUsage, evaluate, dispatchOf, cfgDefault, markHeld, isAcquire, isRelease,
        List.cons_ne_nil])
      rfl⟩

/-- Membership after a dict assignment: the new entry or an old one. -/
theorem mem_setName (m : DockerMap) (n : String) (e : DockerEntry) :
    ∀ p ∈ setName m n e, p = (n, e) ∨ p ∈ m := by
  induction m with
  | nil =>
    intro p hp
    simp only [setName, List.mem_singleton] at hp
    exact Or.inl hp
  | cons q rest ih =>
    intro p hp
    obtain ⟨k, v⟩ := q
    simp only [setName] at hp
    by_cases hk : k = n
    · rw [if_pos hk] at hp
      rcases List.mem_cons.mp hp with rfl | hp
      · exact Or.inl rfl
      · exact Or.inr (by simp [hp])
    · rw [if_neg hk] at hp
      rcases List.mem_cons.mp hp with rfl | hp
      · exact Or.inr (by simp)
      · rcases ih p hp with h | h
        · exact Or.inl h
        · exact Or.inr (by simp [h])

/-- One per-container step keeps every stats list non-empty: entries are
created or re-seeded with a one-sample list, or extended by an append. -/
theorem containerRun_preserves_nonempty (cfg : StatsConfig) (now : ℚ)
    (m : DockerMap) (name : String) (res : Option Sample)
    (hm : ∀ p ∈ m, p.2.stats ≠ []) :
    ∀ p ∈ (dockerContainerRun cfg now m name res).1, p.2.stats ≠ [] := by
  intro p hp
  unfold dockerContainerRun at hp
  rcases res with _ | s
  · exact hm p hp
  · rcases hl : lookupName m name with _ | entry <;> rw [hl] at hp <;> dsimp only at hp
    · rcases mem_setName m name ⟨[s], now⟩ p hp with rfl | h
      · simp
      · exact hm p h
    · split_ifs at hp
      · rcases hc : computeCpuUsage entry.stats with _ | ⟨cpu, mem⟩ <;>
          rw [hc] at hp <;> dsimp only at hp
        · exact hm p hp
        · split_ifs at hp
          · exact hm p hp
          · rcases mem_setName m name ⟨[s], now⟩ p hp with rfl | h
            · simp
            · exact hm p h
      · rcases mem_setName m name ⟨entry.stats ++ [s], entry.time⟩ p hp with rfl | h
        · simp
        · exact hm p h

/-- The whole per-container loop keeps every stats list non-empty. -/
theorem tickFold_preserves_nonempty (cfg : StatsConfig) (now : ℚ) :
    ∀ (inputs : List (String × Option Sample))
      (acc : DockerMap × List AlertDecision × List LockEvent),
      (∀ p ∈ acc.1, p.2.stats ≠ []) →
      ∀ p ∈ (inputs.foldl (dockerFoldStep cfg now) acc).1, p.2.stats ≠ [] := by
  intro inputs
  induction inputs with
  | nil => exact fun acc hacc => hacc
  | cons c cs ih =>
    intro acc hacc
    simp only [List.foldl_cons]
    apply ih
    intro p hp
    simp only [dockerFoldStep] at hp
    exact containerRun_preserves_nonempty cfg now acc.1 c.1 c.2 hacc p hp

/-- Claim C10 (confirmed): in every reachable docker-monitor state, every
per-container stats list is non-empty — a target's entry is created with its
first sample and every window reset is seeded with the closing tick's sample —
so `_compute_cpu_usage` never divides by zero, neither at window close nor in
`get_stats`, whose whole mapping is always defined. -/
theorem C10_stats_nonempty_invariant (m : DockerMap) (h : DockerReachable m) :
    (∀ p ∈ m, p.2.stats ≠ []) ∧
    (∀ p ∈ m, (computeCpuUsage p.2.stats).isSome = true) ∧
    (dockerGetStatsOut m).isSome = true := by
  have hm : ∀ p ∈ m, p.2.stats ≠ [] := by
    induction h with
    | init => intro p hp; simp at hp
    | tick cfg now inputs m0 _ ih =>
      exact tickFold_preserves_nonempty cfg now inputs (m0, [], []) ih
  refine ⟨hm, fun p hp => ?_, ?_⟩
  · rw [computeCpuUsage_of_ne_nil _ (hm p hp)]
    rfl
  · rw [getStatsOut_eq m hm]
    rfl

/-- Witness for C10: the state after the first tick that creates the entry for
container web is reachable and satisfies the invariant. -/
theorem C10_stats_nonempty_invariant_witness :
    DockerReachable (dockerTickRun cfgScenario 0 [("web", some ⟨40, 0⟩)] []).1 ∧
    (∀ p ∈ (dockerTickRun cfgScenario 0 [("web", some ⟨40, 0⟩)] []).1,
      p.2.stats ≠ []) ∧
    (dockerGetStatsOut (dockerTickRun cfgScenario 0 [("web", some ⟨40, 0⟩)] []).1).isSome
      = true :=
  ⟨DockerReachable.tick cfgScenario 0 [("web", some ⟨40, 0⟩)] [] DockerReachable.init,
    (C10_stats_nonempty_invariant _
      (DockerReachable.tick cfgScenario 0 [("web", some ⟨40, 0⟩)] []
        DockerReachable.init)).1,
    (C10_stats_nonempty_invariant _
      (DockerReachable.tick cfgScenario 0 [("web", some ⟨40, 0⟩)] []
        DockerReachable.init)).2.2⟩

end AppMonitor
